import Mathlib

/-!
Shallow embedding of the express-local-library controller layer.

The repository is the controller layer of a library-catalog web application:
CRUD handlers over Author, Book and BookInstance documents.  Each handler is
embedded as a pure Lean function from a `Store` (the document database state)
and the request data (path identifier, form body) to the new store and the
list of response actions the handler emits (view renders, redirects, errors
forwarded to the outer error collaborator via next).
-/

set_option maxRecDepth 4096

namespace LL

/-- Document identifiers are server-assigned strings (ObjectId values). -/
abbrev Id := String

/-- A field-level validation error collected by the validation pipeline:
the offending field name and the human message attached to the validator. -/
structure VError where
  path : String
  msg : String
deriving Repr, DecidableEq

/-- Value of a form field after the sanitization pipeline ran: a plain
string, a value coerced to a date by toDate, or null (toDate on an
unparseable string). -/
inductive FieldVal where
  | vStr (s : String)
  | vDate (s : String)
  | vNull
deriving Repr, DecidableEq

/-- Whitespace trimming as performed by the trim sanitizer of the external
validation library (JavaScript String.prototype.trim). -/
def jsTrim (s : String) : String :=
  String.mk (((s.toList.dropWhile Char.isWhitespace).reverse.dropWhile Char.isWhitespace).reverse)

/-- HTML-escaping of one character as performed by the escape sanitizer of
the external validation library. -/
def escapeChar (c : Char) : String :=
  if c = '&' then "&amp;"
  else if c = '<' then "&lt;"
  else if c = '>' then "&gt;"
  else if c = Char.ofNat 34 then "&quot;"
  else if c = Char.ofNat 39 then "&#x27;"
  else if c = Char.ofNat 47 then "&#x2F;"
  else if c = Char.ofNat 92 then "&#x5C;"
  else if c = Char.ofNat 96 then "&#96;"
  else String.singleton c

/-- HTML-escaping as performed by the escape sanitizer of the external
validation library. -/
def escape (s : String) : String :=
  String.join (s.toList.map escapeChar)

/-- Alphanumeric check of the external validation library (en-US locale):
at least one character, all characters ASCII letters or digits. -/
def isAlphanumeric (s : String) : Bool :=
  !s.isEmpty && s.toList.all (fun c => c.isAlpha || c.isDigit)

/-- ISO-8601 calendar-date check, modelling the external validation
library's isISO8601 validator on the YYYY-MM-DD form. -/
def isISO8601 (s : String) : Bool :=
  match s.toList with
  | [y1, y2, y3, y4, h1, m1, m2, h2, d1, d2] =>
      y1.isDigit && y2.isDigit && y3.isDigit && y4.isDigit &&
      (h1 == '-') && m1.isDigit && m2.isDigit && (h2 == '-') && d1.isDigit && d2.isDigit &&
      (let m := (m1.toNat - 48) * 10 + (m2.toNat - 48)
       decide (1 ≤ m) && decide (m ≤ 12)) &&
      (let d := (d1.toNat - 48) * 10 + (d2.toNat - 48)
       decide (1 ≤ d) && decide (d ≤ 31))
  | _ => false

/-- Validation chain trim().isLength(min 1).escape() with message `msg`
attached to the isLength validator, as used for the required text fields. -/
def required_escaped (field msg : String) (v : String) : String × List VError :=
  let v1 := jsTrim v
  let errs : List VError := if v1.length ≥ 1 then [] else [⟨field, msg⟩]
  (escape v1, errs)

/-- Validation chain escape() alone (no trim, no validator), as used for the
status field of the BookInstance create form. -/
def escaped_only (v : String) : String × List VError :=
  (escape v, [])

/-- Validation chain trim().escape() (sanitizers only, no validator), as
used for the date fields of the Author update form. -/
def trim_escaped (v : String) : String × List VError :=
  (escape (jsTrim v), [])

/-- Validation chain optional(values falsy).isISO8601().toDate() with
message `msg`: a falsy (empty) value skips the chain, otherwise the value
must be an ISO-8601 date and is coerced to a date value. -/
def date_optional (field msg : String) (v : String) : FieldVal × List VError :=
  if v = "" then (FieldVal.vStr v, [])
  else if isISO8601 v then (FieldVal.vDate v, [])
  else (FieldVal.vNull, [⟨field, msg⟩])

/-- Validation chain trim().isLength(min 1).escape().withMessage(msg1)
.isAlphanumeric().withMessage(msg2), as used for the name fields of the
Author create form.  The alphanumeric check runs on the escaped value. -/
def alnum_required_escaped (field msg1 msg2 : String) (v : String) : String × List VError :=
  let v1 := jsTrim v
  let e1 : List VError := if v1.length ≥ 1 then [] else [⟨field, msg1⟩]
  let v2 := escape v1
  let e2 : List VError := if isAlphanumeric v2 then [] else [⟨field, msg2⟩]
  (v2, e1 ++ e2)

/-- Cast of a sanitized field value to the optional date slot of a document,
modelling the external document-mapper's Date cast: empty strings and null
become unset, everything else is stored. -/
def castDate : FieldVal → Option String
  | FieldVal.vStr s => if s = "" then none else some s
  | FieldVal.vDate s => some s
  | FieldVal.vNull => none

/-- Modelled from the spec: an Author document — first_name, family_name,
optional date_of_birth and date_of_death, with a server-assigned id
(the schema itself lives in the model module, outside the controllers). -/
structure Author where
  id : Id
  first_name : String
  family_name : String
  date_of_birth : Option String := none
  date_of_death : Option String := none
deriving Repr, DecidableEq

/-- Modelled from the spec: a Book document — title, reference to its
Author, summary, ISBN and genre references. -/
structure Book where
  id : Id
  title : String := ""
  author : Id
  summary : String := ""
  isbn : String := ""
  genre : List Id := []
deriving Repr, DecidableEq

/-- Modelled from the spec: a BookInstance document — reference to its
Book, imprint, status and optional due_back date. -/
structure BookInstance where
  id : Id
  book : Id
  imprint : String := ""
  status : String := ""
  due_back : Option String := none
deriving Repr, DecidableEq

/-- State of the external document store: the collections the controllers
under verification read and mutate. -/
structure Store where
  authors : List Author := []
  books : List Book := []
  bookinstances : List BookInstance := []
deriving Repr, DecidableEq

/-- Model.findById of the external document-mapper on the Author
collection: first document whose id matches. -/
def Author.findById (l : List Author) (i : Id) : Option Author :=
  l.find? (fun a => a.id == i)

/-- Model.findById on the Book collection. -/
def Book.findById (l : List Book) (i : Id) : Option Book :=
  l.find? (fun b => b.id == i)

/-- Model.findById on the BookInstance collection. -/
def BookInstance.findById (l : List BookInstance) (i : Id) : Option BookInstance :=
  l.find? (fun b => b.id == i)

/-- Book.find with filter on the author reference, as issued by the Author
detail/delete handlers (the title/summary projection is not modelled). -/
def booksByAuthor (l : List Book) (i : Id) : List Book :=
  l.filter (fun b => b.author == i)

/-- BookInstance.find with filter on the book reference, as issued by the
Book detail handler. -/
def instancesByBook (l : List BookInstance) (i : Id) : List BookInstance :=
  l.filter (fun b => b.book == i)

/-- Modelled from the spec: the canonical detail path of an Author (the url
virtual of the Author model, outside the controllers). -/
def authorUrl (i : Id) : String :=
  "/catalog/author/" ++ i

/-- Modelled from the spec: the canonical detail path of a BookInstance. -/
def bookinstanceUrl (i : Id) : String :=
  "/catalog/bookinstance/" ++ i

/-- Data bag handed to the view-rendering collaborator, one constructor per
render site shape appearing in the controllers. -/
inductive RenderData where
  | author_detail_data (author : Author) (author_books : List Book)
  | author_form_data (author : Author) (errors : List VError)
  | author_update_form_data (author : Author)
  | author_delete_data (author : Option Author) (author_books : List Book)
  | bookinstance_list_data (bookinstance_list : List BookInstance)
  | bookinstance_detail_data (bookinstance : BookInstance)
  | bookinstance_update_form_data (bookinstance : BookInstance) (book_list : List Book)
  | bookinstance_update_err_data (book_list : List Book) (errors : List VError)
  | bookinstance_delete_data (book_instance : Option BookInstance)
  | book_detail_data (book : Book) (book_instances : List BookInstance)
deriving Repr, DecidableEq

/-- A response action emitted by a handler: a view render (view name, title,
route and data bag), an HTTP redirect, or an error object forwarded to the
outer error collaborator via next (message and optional status field). -/
inductive Response where
  | render (view : String) (title : String) (route : String) (data : RenderData)
  | redirect (path : String)
  | nextError (msg : String) (status : Option Nat)
deriving Repr, DecidableEq

/-- Form-encoded body of the Author create/update POST routes. -/
structure AuthorForm where
  first_name : String
  family_name : String
  date_of_birth : String := ""
  date_of_death : String := ""
deriving Repr, DecidableEq

/-- Sanitized Author form values after the validation pipeline mutated the
request body. -/
structure AuthorSanitized where
  first_name : String
  family_name : String
  date_of_birth : FieldVal
  date_of_death : FieldVal
deriving Repr, DecidableEq

/-- Form-encoded body of the BookInstance create/update POST routes. -/
structure BookInstanceForm where
  book : String
  imprint : String
  status : String := ""
  due_back : String := ""
deriving Repr, DecidableEq

/-- Sanitized BookInstance form values after the validation pipeline mutated
the request body. -/
structure BookInstanceSanitized where
  book : String
  imprint : String
  status : String
  due_back : FieldVal
deriving Repr, DecidableEq

/-- Validation/sanitization pipeline of author_create_post: first_name and
family_name required and alphanumeric, date_of_birth and date_of_death
optional ISO-8601 dates coerced by toDate. -/
def authorCreateValidation (f : AuthorForm) : AuthorSanitized × List VError :=
  let fn := alnum_required_escaped "first_name" "First name must be specified."
    "First name has non-alphanumeric characters." f.first_name
  let ln := alnum_required_escaped "family_name" "Family name must be specified."
    "Family name has non-alphanumeric characters." f.family_name
  let db := date_optional "date_of_birth" "Invalid date of birth" f.date_of_birth
  let dd := date_optional "date_of_death" "Invalid date of death" f.date_of_death
  ({ first_name := fn.1, family_name := ln.1, date_of_birth := db.1, date_of_death := dd.1 },
   fn.2 ++ ln.2 ++ db.2 ++ dd.2)

/-- Validation/sanitization pipeline of author_update_post: first_name and
family_name required (no alphanumeric check), the date fields only trimmed
and escaped with no validator and no date coercion. -/
def authorUpdateValidation (f : AuthorForm) : AuthorSanitized × List VError :=
  let fn := required_escaped "first_name" "First Name must not be empty." f.first_name
  let ln := required_escaped "family_name" "Family Name must not be empty" f.family_name
  let db := trim_escaped f.date_of_birth
  let dd := trim_escaped f.date_of_death
  ({ first_name := fn.1, family_name := ln.1,
     date_of_birth := FieldVal.vStr db.1, date_of_death := FieldVal.vStr dd.1 },
   fn.2 ++ ln.2 ++ db.2 ++ dd.2)

/-- Validation/sanitization pipeline of bookinstance_create_post: book and
imprint required, status escaped only, due_back an optional ISO-8601 date
coerced by toDate. -/
def bookinstanceCreateValidation (f : BookInstanceForm) : BookInstanceSanitized × List VError :=
  let bk := required_escaped "book" "Book must be specified" f.book
  let im := required_escaped "imprint" "Imprint must be specified" f.imprint
  let st := escaped_only f.status
  let db := date_optional "due_back" "Invalid date" f.due_back
  ({ book := bk.1, imprint := im.1, status := st.1, due_back := db.1 },
   bk.2 ++ im.2 ++ st.2 ++ db.2)

/-- Validation/sanitization pipeline of bookinstance_update_post: book,
imprint, due_back and status all required text fields, due_back kept as an
escaped string with no date coercion. -/
def bookinstanceUpdateValidation (f : BookInstanceForm) : BookInstanceSanitized × List VError :=
  let bk := required_escaped "book" "Book must not be empty." f.book
  let im := required_escaped "imprint" "Imprint must not be empty" f.imprint
  let db := required_escaped "due_back" "Date must not be empty." f.due_back
  let st := required_escaped "status" "Status must not be empty" f.status
  ({ book := bk.1, imprint := im.1, status := st.1, due_back := FieldVal.vStr db.1 },
   bk.2 ++ im.2 ++ db.2 ++ st.2)

/-- Construction new Author with the sanitized request body fields (the
document-mapper casts empty date strings and null to unset). -/
def author_doc (i : Id) (s : AuthorSanitized) : Author :=
  { id := i, first_name := s.first_name, family_name := s.family_name,
    date_of_birth := castDate s.date_of_birth, date_of_death := castDate s.date_of_death }

/-- Construction new BookInstance with the sanitized request body fields. -/
def bookinstance_doc (i : Id) (s : BookInstanceSanitized) : BookInstance :=
  { id := i, book := s.book, imprint := s.imprint, status := s.status,
    due_back := castDate s.due_back }

namespace AuthorCtl

/-- Handler author_detail: fetch the author and their books in parallel; an
unknown id forwards a 404 "Author not found" error via next, otherwise the
detail view is rendered. -/
def author_detail (store : Store) (pid : Id) : List Response :=
  let author := Author.findById store.authors pid
  let allBooksByAuthor := booksByAuthor store.books pid
  match author with
  | none => [Response.nextError "Author not found" (some 404)]
  | some a =>
      [Response.render "index" "Author Detail" "author_detail.ejs"
        (RenderData.author_detail_data a allBooksByAuthor)]

/-- Handler author_create_post (after the validation pipeline ran): when
there are errors the form is re-rendered with the sanitized values and the
error list; otherwise the new author is saved and the response redirects to
its detail path.  `newId` is the ObjectId the document-mapper assigns to the
freshly constructed document. -/
def author_create_post (store : Store) (form : AuthorForm) (newId : Id) :
    Store × List Response :=
  let v := authorCreateValidation form
  let author := author_doc newId v.1
  if v.2 ≠ [] then
    (store, [Response.render "index" "Create Author" "author_form.ejs"
      (RenderData.author_form_data author v.2)])
  else
    ({ store with authors := store.authors ++ [author] },
     [Response.redirect (authorUrl author.id)])

/-- Handler author_delete_get: the source redirects on a missing author
without returning, so the confirmation render below still executes; the
handler therefore emits the redirect followed by the render. -/
def author_delete_get (store : Store) (pid : Id) : List Response :=
  let author := Author.findById store.authors pid
  let allBooksByAuthor := booksByAuthor store.books pid
  (if author = none then [Response.redirect "/catalog/authors"] else []) ++
  [Response.render "index" "Delete Author" "author_delete.ejs"
    (RenderData.author_delete_data author allBooksByAuthor)]

/-- Handler author_delete_post: dependent books are looked up by the path
id; when any exist the confirmation view is re-rendered, otherwise
Author.findByIdAndRemove runs on the authorid field of the form body and
the response redirects to the author list. -/
def author_delete_post (store : Store) (pid : Id) (bodyAuthorid : Id) :
    Store × List Response :=
  let author := Author.findById store.authors pid
  let allBooksByAuthor := booksByAuthor store.books pid
  if allBooksByAuthor.length > 0 then
    (store, [Response.render "index" "Delete Author" "author_delete.ejs"
      (RenderData.author_delete_data author allBooksByAuthor)])
  else
    ({ store with authors := store.authors.filter (fun a => !(a.id == bodyAuthorid)) },
     [Response.redirect "/catalog/authors"])

/-- Handler author_update_get: an unknown id forwards a 404 "author not
found" error via next, otherwise the pre-filled form is rendered. -/
def author_update_get (store : Store) (pid : Id) : List Response :=
  match Author.findById store.authors pid with
  | none => [Response.nextError "author not found" (some 404)]
  | some a =>
      [Response.render "index" "Update Author" "author_form.ejs"
        (RenderData.author_update_form_data a)]

/-- Handler author_update_post (after the validation pipeline ran): on
errors the form is re-rendered; on valid data Author.findByIdAndUpdate
replaces the document under the path id, and the redirect reads the url of
the returned pre-update document — when the id is unknown that document is
null and reading url raises a TypeError forwarded by the async wrapper to
next without any status field. -/
def author_update_post (store : Store) (pid : Id) (form : AuthorForm) :
    Store × List Response :=
  let v := authorUpdateValidation form
  let author := author_doc pid v.1
  if v.2 ≠ [] then
    (store, [Response.render "index" "Update Author" "author_form.ejs"
      (RenderData.author_form_data author v.2)])
  else
    match Author.findById store.authors pid with
    | some updatedAuthor =>
        ({ store with authors := store.authors.map (fun a => if a.id == pid then author else a) },
         [Response.redirect (authorUrl updatedAuthor.id)])
    | none =>
        (store, [Response.nextError "Cannot read properties of null (reading url)" none])

end AuthorCtl

namespace BookInstanceCtl

/-- Handler bookinstance_list of the full BookInstance controller module:
fetch all instances (book reference populated externally) and render the
list view. -/
def bookinstance_list (store : Store) : List Response :=
  [Response.render "index" "Book Instance List" "bookinstance_list.ejs"
    (RenderData.bookinstance_list_data store.bookinstances)]

/-- Handler bookinstance_detail of the full module: an unknown id forwards
a 404 "Book copy not found" error via next, otherwise the detail view is
rendered. -/
def bookinstance_detail (store : Store) (pid : Id) : List Response :=
  match BookInstance.findById store.bookinstances pid with
  | none => [Response.nextError "Book copy not found" (some 404)]
  | some bi =>
      [Response.render "index" "Book:" "bookinstance_detail.ejs"
        (RenderData.bookinstance_detail_data bi)]

/-- Handler bookinstance_create_post (after the validation pipeline ran):
the error branch evaluates Book.find({}, "title".exec()) — "title".exec is
not a function, so a TypeError is raised before any render and forwarded by
the async wrapper to next; on valid data the instance is saved and the
response redirects to its detail path. -/
def bookinstance_create_post (store : Store) (form : BookInstanceForm) (newId : Id) :
    Store × List Response :=
  let v := bookinstanceCreateValidation form
  let bi := bookinstance_doc newId v.1
  if v.2 ≠ [] then
    (store, [Response.nextError "\"title\".exec is not a function" none])
  else
    ({ store with bookinstances := store.bookinstances ++ [bi] },
     [Response.redirect (bookinstanceUrl bi.id)])

/-- Handler bookinstance_delete_get: the source redirects on a missing
instance without returning, so the confirmation render below still
executes; the handler therefore emits the redirect followed by the
render. -/
def bookinstance_delete_get (store : Store) (pid : Id) : List Response :=
  let bookInstance := BookInstance.findById store.bookinstances pid
  (if bookInstance = none then [Response.redirect "/catalog/bookinstances"] else []) ++
  [Response.render "index" "Delete Book Instance" "bookinstance_delete.ejs"
    (RenderData.bookinstance_delete_data bookInstance)]

/-- Handler bookinstance_delete_post: existence is checked on the path id;
when the instance exists BookInstance.findByIdAndRemove runs on the
bookinstanceid field of the form body, and either way the response
redirects to the instance list. -/
def bookinstance_delete_post (store : Store) (pid : Id) (bodyBookinstanceid : Id) :
    Store × List Response :=
  match BookInstance.findById store.bookinstances pid with
  | none => (store, [Response.redirect "/catalog/bookinstances"])
  | some _ =>
      ({ store with bookinstances :=
          store.bookinstances.filter (fun b => !(b.id == bodyBookinstanceid)) },
       [Response.redirect "/catalog/bookinstances"])

/-- Handler bookinstance_update_get: an unknown id forwards a 404 "book
instance not found" error via next, otherwise the pre-filled form is
rendered with the book list. -/
def bookinstance_update_get (store : Store) (pid : Id) : List Response :=
  match BookInstance.findById store.bookinstances pid with
  | none => [Response.nextError "book instance not found" (some 404)]
  | some bi =>
      [Response.render "index" "Update Book Instance" "bookinstance_form.ejs"
        (RenderData.bookinstance_update_form_data bi store.books)]

/-- Handler bookinstance_update_post (after the validation pipeline ran):
on errors the update form is re-rendered with the book list and error
messages; on valid data BookInstance.findByIdAndUpdate replaces the
document under the path id, and the redirect reads the url of the returned
pre-update document — null when the id is unknown, raising a TypeError
forwarded to next without any status field. -/
def bookinstance_update_post (store : Store) (pid : Id) (form : BookInstanceForm) :
    Store × List Response :=
  let v := bookinstanceUpdateValidation form
  let bi := bookinstance_doc pid v.1
  if v.2 ≠ [] then
    (store, [Response.render "index" "Update Book Instance" "bookinstance_update.ejs"
      (RenderData.bookinstance_update_err_data store.books v.2)])
  else
    match BookInstance.findById store.bookinstances pid with
    | some updatedBookInstance =>
        ({ store with bookinstances :=
            store.bookinstances.map (fun b => if b.id == pid then bi else b) },
         [Response.redirect (bookinstanceUrl updatedBookInstance.id)])
    | none =>
        (store, [Response.nextError "Cannot read properties of null (reading url)" none])

end BookInstanceCtl

namespace BookInstanceStub

/-- Handler bookinstance_list of the stub-bearing BookInstance controller
module (the one whose other handlers are NOT IMPLEMENTED stubs). -/
def bookinstance_list (store : Store) : List Response :=
  [Response.render "index" "Book Instance List" "bookinstance_list.ejs"
    (RenderData.bookinstance_list_data store.bookinstances)]

/-- Handler bookinstance_detail of the stub-bearing module: identical to the
full module's handler except that it lacks the debug log line. -/
def bookinstance_detail (store : Store) (pid : Id) : List Response :=
  match BookInstance.findById store.bookinstances pid with
  | none => [Response.nextError "Book copy not found" (some 404)]
  | some bi =>
      [Response.render "index" "Book:" "bookinstance_detail.ejs"
        (RenderData.bookinstance_detail_data bi)]

end BookInstanceStub

namespace BookCtl

/-- Handler book_detail: fetch the book and its instances in parallel; an
unknown id forwards a 404 "Book not found" error via next, otherwise the
detail view is rendered with the book title as view title. -/
def book_detail (store : Store) (pid : Id) : List Response :=
  let book := Book.findById store.books pid
  let bookInstances := instancesByBook store.bookinstances pid
  match book with
  | none => [Response.nextError "Book not found" (some 404)]
  | some b =>
      [Response.render "index" b.title "book_detail.ejs"
        (RenderData.book_detail_data b bookInstances)]

end BookCtl

/-- Presence of a validation error for a given field in an error list. -/
def hasFieldError (errs : List VError) (field : String) : Bool :=
  errs.any (fun e => e.path == field)

/-- Empty document store. -/
def emptyStore : Store := {}

/-- Store holding a single author with no dependent books. -/
def oneAuthorStore : Store :=
  { authors := [{ id := "1", first_name := "Jane", family_name := "Austen" }] }

/-- Store holding a single author who has one dependent book. -/
def guardedStore : Store :=
  { authors := [{ id := "1", first_name := "Jane", family_name := "Austen" }],
    books := [{ id := "b1", title := "Emma", author := "1" }] }

/-- Store holding one author and one book instance, both with id 1. -/
def sampleStore : Store :=
  { authors := [{ id := "1", first_name := "Jane", family_name := "Austen" }],
    bookinstances := [{ id := "1", book := "b1", imprint := "I", status := "Available" }] }

/-- Store holding two authors and two book instances with ids 1 and 2. -/
def twoEachStore : Store :=
  { authors := [{ id := "1", first_name := "Jane", family_name := "Austen" },
                { id := "2", first_name := "Mary", family_name := "Shelley" }],
    bookinstances := [{ id := "1", book := "b1" }, { id := "2", book := "b2" }] }

/-- Helper: mapping a replace-at-id function over a list preserves find?
success and returns the replacement, provided some element matched. -/
theorem find_replace_of_found {α : Type} (gid : α → Id) (l : List α) (i : Id) (d : α)
    (hd : gid d = i) (h : (l.find? (fun a => gid a == i)).isSome) :
    (l.map (fun a => if gid a == i then d else a)).find? (fun a => gid a == i) = some d := by
  induction l with
  | nil => simp [List.find?] at h
  | cons a t ih =>
      by_cases ha : (gid a == i) = true
      · rw [List.map_cons, if_pos ha, List.find?_cons_of_pos _ (by simp [hd])]
      · rw [List.map_cons, if_neg ha, List.find?_cons_of_neg _ (by simpa using ha)]
        rw [List.find?_cons_of_neg _ (by simpa using ha)] at h
        exact ih h

/-- Helper: filtering with a predicate implied by the search predicate does
not change the result of find?. -/
theorem find_filter_of_imp {α : Type} (p q : α → Bool) (l : List α)
    (hpq : ∀ a, p a = true → q a = true) :
    (l.filter q).find? p = l.find? p := by
  induction l with
  | nil => rfl
  | cons a t ih =>
      by_cases hq : q a = true
      · rw [List.filter_cons_of_pos hq]
        by_cases hp : p a = true
        · rw [List.find?_cons_of_pos _ hp, List.find?_cons_of_pos _ hp]
        · rw [List.find?_cons_of_neg _ (by simpa using hp),
              List.find?_cons_of_neg _ (by simpa using hp)]
          exact ih
      · have hp : ¬ p a = true := fun hpa => hq (hpq a hpa)
        rw [List.filter_cons_of_neg (by simpa using hq),
            List.find?_cons_of_neg _ (by simpa using hp)]
        exact ih

/-- C10: the stub-bearing BookInstance controller module and the full module
implement equivalent bookinstance_list and bookinstance_detail handlers: for
every store state and request both produce the same rendered list data and
the same detail response, and on an unknown identifier both propagate the
404 error with message "Book copy not found". -/
theorem bookinstance_modules_equiv (store : Store) (pid : Id) :
    BookInstanceStub.bookinstance_list store = BookInstanceCtl.bookinstance_list store ∧
    BookInstanceStub.bookinstance_detail store pid = BookInstanceCtl.bookinstance_detail store pid ∧
    (BookInstance.findById store.bookinstances pid = none →
      BookInstanceStub.bookinstance_detail store pid =
        [Response.nextError "Book copy not found" (some 404)]) := by
  refine ⟨rfl, rfl, fun h => ?_⟩
  unfold BookInstanceStub.bookinstance_detail
  rw [h]

/-- Witness for C10 at the empty store and an unknown identifier. -/
theorem bookinstance_modules_equiv_witness :
    BookInstanceStub.bookinstance_detail emptyStore "0" =
      [Response.nextError "Book copy not found" (some 404)] :=
  (bookinstance_modules_equiv emptyStore "0").2.2 rfl

/-- C7 (code bug): on a delete GET request with an identifier absent from
the store, both delete_get handlers emit the redirect to the list view but,
lacking a return, fall through and also render the confirmation view with a
null entity — evaluated here at the empty store. -/
theorem delete_get_absent_fallthrough :
    AuthorCtl.author_delete_get emptyStore "x" =
      [Response.redirect "/catalog/authors",
       Response.render "index" "Delete Author" "author_delete.ejs"
         (RenderData.author_delete_data none [])] ∧
    BookInstanceCtl.bookinstance_delete_get emptyStore "x" =
      [Response.redirect "/catalog/bookinstances",
       Response.render "index" "Delete Book Instance" "bookinstance_delete.ejs"
         (RenderData.bookinstance_delete_data none)] := by
  decide

/-- C2: every detail request whose path identifier does not resolve to an
existing entity propagates an error with status 404 to the outer error
collaborator and renders no view; the BookInstance message is "Book copy
not found". -/
theorem detail_not_found_404 (store : Store) (pid : Id) :
    (Author.findById store.authors pid = none →
      AuthorCtl.author_detail store pid = [Response.nextError "Author not found" (some 404)]) ∧
    (Book.findById store.books pid = none →
      BookCtl.book_detail store pid = [Response.nextError "Book not found" (some 404)]) ∧
    (BookInstance.findById store.bookinstances pid = none →
      BookInstanceCtl.bookinstance_detail store pid =
        [Response.nextError "Book copy not found" (some 404)]) := by
  refine ⟨fun h => ?_, fun h => ?_, fun h => ?_⟩
  · unfold AuthorCtl.author_detail
    rw [h]
  · unfold BookCtl.book_detail
    rw [h]
  · unfold BookInstanceCtl.bookinstance_detail
    rw [h]

/-- Witness for C2 at the empty store and an unknown identifier. -/
theorem detail_not_found_404_witness :
    AuthorCtl.author_detail emptyStore "0" = [Response.nextError "Author not found" (some 404)] ∧
    BookCtl.book_detail emptyStore "0" = [Response.nextError "Book not found" (some 404)] ∧
    BookInstanceCtl.bookinstance_detail emptyStore "0" =
      [Response.nextError "Book copy not found" (some 404)] :=
  ⟨(detail_not_found_404 emptyStore "0").1 rfl,
   (detail_not_found_404 emptyStore "0").2.1 rfl,
   (detail_not_found_404 emptyStore "0").2.2 rfl⟩

/-- C1 counterexample: for the delete POST request against author 1 (who has
zero dependent books) whose form body carries authorid 2, the handler
redirects to the author list yet author 1 is still in the store — the claim
that zero dependent books imply the author is removed fails as stated. -/
theorem author_delete_post_body_id_cex :
    (booksByAuthor oneAuthorStore.books "1").length = 0 ∧
    (AuthorCtl.author_delete_post oneAuthorStore "1" "2").2 =
      [Response.redirect "/catalog/authors"] ∧
    (AuthorCtl.author_delete_post oneAuthorStore "1" "2").1.authors.any
      (fun a => a.id == "1") = true := by
  decide

/-- C1 (amended): for a delete POST request whose form body identifier
equals the path identifier, the author is removed from the store iff the
number of books referencing the path identifier is zero — with at least one
dependent book the store is unchanged and the confirmation view is
re-rendered with the dependent books; with zero the author is removed and
the response redirects to the author list path. -/
theorem author_delete_post_books_guard (store : Store) (pid bodyId : Id)
    (hb : bodyId = pid) :
    ((booksByAuthor store.books pid).length > 0 →
      AuthorCtl.author_delete_post store pid bodyId =
        (store, [Response.render "index" "Delete Author" "author_delete.ejs"
          (RenderData.author_delete_data (Author.findById store.authors pid)
            (booksByAuthor store.books pid))])) ∧
    ((booksByAuthor store.books pid).length = 0 →
      (AuthorCtl.author_delete_post store pid bodyId).1.authors =
        store.authors.filter (fun a => !(a.id == pid)) ∧
      (AuthorCtl.author_delete_post store pid bodyId).2 =
        [Response.redirect "/catalog/authors"]) := by
  subst hb
  constructor
  · intro hpos
    unfold AuthorCtl.author_delete_post
    rw [if_pos hpos]
  · intro hzero
    unfold AuthorCtl.author_delete_post
    rw [if_neg (by omega)]
    exact ⟨rfl, rfl⟩

/-- Witness for C1 at both branches: with a dependent book the store is
unchanged and the view re-rendered; with none the author is removed. -/
theorem author_delete_post_books_guard_witness :
    AuthorCtl.author_delete_post guardedStore "1" "1" =
      (guardedStore, [Response.render "index" "Delete Author" "author_delete.ejs"
        (RenderData.author_delete_data (Author.findById guardedStore.authors "1")
          (booksByAuthor guardedStore.books "1"))]) ∧
    (AuthorCtl.author_delete_post oneAuthorStore "1" "1").1.authors = [] ∧
    (AuthorCtl.author_delete_post oneAuthorStore "1" "1").2 =
      [Response.redirect "/catalog/authors"] := by
  have h1 := (author_delete_post_books_guard guardedStore "1" "1" rfl).1 (by decide)
  have h2 := (author_delete_post_books_guard oneAuthorStore "1" "1" rfl).2 (by decide)
  exact ⟨h1, h2.1.trans (by decide), h2.2⟩

/-- C3 (code bug): on a create POST submission failing validation, the
Author handler persists nothing and re-renders the form with the sanitized
input echoed and messages referencing the failing field — but the
BookInstance handler, while persisting nothing, never reaches its render:
its error branch evaluates "title".exec(), raising a TypeError that is
forwarded to the outer error collaborator instead of the form view.
Evaluated at an empty family_name and an empty imprint respectively. -/
theorem bookinstance_create_post_error_crash :
    (AuthorCtl.author_create_post emptyStore
      { first_name := "Jane", family_name := "" } "7").1 = emptyStore ∧
    (AuthorCtl.author_create_post emptyStore
      { first_name := "Jane", family_name := "" } "7").2 =
      [Response.render "index" "Create Author" "author_form.ejs"
        (RenderData.author_form_data { id := "7", first_name := "Jane", family_name := "" }
          [⟨"family_name", "Family name must be specified."⟩,
           ⟨"family_name", "Family name has non-alphanumeric characters."⟩])] ∧
    (BookInstanceCtl.bookinstance_create_post emptyStore
      { book := "5", imprint := "" } "9").1 = emptyStore ∧
    (BookInstanceCtl.bookinstance_create_post emptyStore
      { book := "5", imprint := "" } "9").2 =
      [Response.nextError "\"title\".exec is not a function" none] := by
  decide

/-- C4: every create POST submission passing validation persists a new
entity carrying exactly the sanitized field values and redirects to its
canonical detail path; optional date fields left empty contribute no errors
and are stored unset. -/
theorem create_post_valid_persists (store : Store) (af : AuthorForm)
    (bf : BookInstanceForm) (newId : Id) :
    ((authorCreateValidation af).2 = [] →
      AuthorCtl.author_create_post store af newId =
        ({ store with authors :=
            store.authors ++ [author_doc newId (authorCreateValidation af).1] },
         [Response.redirect (authorUrl newId)])) ∧
    (af.date_of_birth = "" →
      (author_doc newId (authorCreateValidation af).1).date_of_birth = none ∧
      (date_optional "date_of_birth" "Invalid date of birth" af.date_of_birth).2 = []) ∧
    (af.date_of_death = "" →
      (author_doc newId (authorCreateValidation af).1).date_of_death = none ∧
      (date_optional "date_of_death" "Invalid date of death" af.date_of_death).2 = []) ∧
    ((bookinstanceCreateValidation bf).2 = [] →
      BookInstanceCtl.bookinstance_create_post store bf newId =
        ({ store with bookinstances :=
            store.bookinstances ++ [bookinstance_doc newId (bookinstanceCreateValidation bf).1] },
         [Response.redirect (bookinstanceUrl newId)])) := by
  refine ⟨fun h => ?_, fun h => ?_, fun h => ?_, fun h => ?_⟩
  · unfold AuthorCtl.author_create_post
    rw [if_neg (by simp [h])]
    simp [author_doc]
  · simp [author_doc, authorCreateValidation, date_optional, castDate, h]
  · simp [author_doc, authorCreateValidation, date_optional, castDate, h]
  · unfold BookInstanceCtl.bookinstance_create_post
    rw [if_neg (by simp [h])]
    simp [bookinstance_doc]

/-- Witness for C4: creating Jane Austen with no dates persists a document
with both date fields unset and redirects to the new detail path. -/
theorem create_post_valid_persists_witness :
    AuthorCtl.author_create_post emptyStore
      { first_name := "Jane", family_name := "Austen" } "7" =
      ({ authors := [{ id := "7", first_name := "Jane", family_name := "Austen" }] },
       [Response.redirect "/catalog/author/7"]) ∧
    (author_doc "7" (authorCreateValidation
      { first_name := "Jane", family_name := "Austen" }).1).date_of_birth = none ∧
    (author_doc "7" (authorCreateValidation
      { first_name := "Jane", family_name := "Austen" }).1).date_of_death = none ∧
    BookInstanceCtl.bookinstance_create_post emptyStore
      { book := "5", imprint := "X", status := "Available" } "9" =
      ({ bookinstances :=
          [{ id := "9", book := "5", imprint := "X", status := "Available" }] },
       [Response.redirect "/catalog/bookinstance/9"]) := by
  have h := create_post_valid_persists emptyStore
    { first_name := "Jane", family_name := "Austen" }
    { book := "5", imprint := "X", status := "Available" } "7"
  have h9 := create_post_valid_persists emptyStore
    { first_name := "Jane", family_name := "Austen" }
    { book := "5", imprint := "X", status := "Available" } "9"
  exact ⟨(h.1 (by decide)).trans (by decide), (h.2.1 rfl).1, (h.2.2.1 rfl).1,
         (h9.2.2.2 (by decide)).trans (by decide)⟩

/-- C5: a valid update POST submission against an existing entity persists
the document under the original path identifier with the sanitized
submitted field values and redirects to that identifier's detail path, for
both the Author and the BookInstance update handlers. -/
theorem update_post_preserves_id (store : Store) (pid : Id) (af : AuthorForm)
    (bf : BookInstanceForm) :
    ((authorUpdateValidation af).2 = [] →
      (Author.findById store.authors pid).isSome →
      (AuthorCtl.author_update_post store pid af).2 =
        [Response.redirect (authorUrl pid)] ∧
      Author.findById (AuthorCtl.author_update_post store pid af).1.authors pid =
        some (author_doc pid (authorUpdateValidation af).1)) ∧
    ((bookinstanceUpdateValidation bf).2 = [] →
      (BookInstance.findById store.bookinstances pid).isSome →
      (BookInstanceCtl.bookinstance_update_post store pid bf).2 =
        [Response.redirect (bookinstanceUrl pid)] ∧
      BookInstance.findById
        (BookInstanceCtl.bookinstance_update_post store pid bf).1.bookinstances pid =
        some (bookinstance_doc pid (bookinstanceUpdateValidation bf).1)) := by
  constructor
  · intro hv hsome
    obtain ⟨old, hold⟩ := Option.isSome_iff_exists.mp hsome
    have hid : old.id = pid := by
      have := List.find?_some hold
      exact eq_of_beq (by simpa using this)
    unfold AuthorCtl.author_update_post
    rw [if_neg (by simp [hv])]
    rw [hold]
    dsimp only
    rw [hid]
    refine ⟨rfl, ?_⟩
    have hs : (store.authors.find? (fun a => a.id == pid)).isSome = true := hsome
    exact find_replace_of_found (fun a => a.id) store.authors pid
      (author_doc pid (authorUpdateValidation af).1) rfl hs
  · intro hv hsome
    obtain ⟨old, hold⟩ := Option.isSome_iff_exists.mp hsome
    have hid : old.id = pid := by
      have := List.find?_some hold
      exact eq_of_beq (by simpa using this)
    unfold BookInstanceCtl.bookinstance_update_post
    rw [if_neg (by simp [hv])]
    rw [hold]
    dsimp only
    rw [hid]
    refine ⟨rfl, ?_⟩
    have hs : (store.bookinstances.find? (fun b => b.id == pid)).isSome = true := hsome
    exact find_replace_of_found (fun b => b.id) store.bookinstances pid
      (bookinstance_doc pid (bookinstanceUpdateValidation bf).1) rfl hs

/-- Witness for C5: updating author 1 and book instance 1 in a store that
contains them keeps the identifier 1 on the persisted documents and
redirects to their detail paths. -/
theorem update_post_preserves_id_witness :
    (AuthorCtl.author_update_post sampleStore "1"
      { first_name := "Mary", family_name := "Shelley" }).2 =
      [Response.redirect "/catalog/author/1"] ∧
    Author.findById (AuthorCtl.author_update_post sampleStore "1"
      { first_name := "Mary", family_name := "Shelley" }).1.authors "1" =
      some { id := "1", first_name := "Mary", family_name := "Shelley" } ∧
    (BookInstanceCtl.bookinstance_update_post sampleStore "1"
      { book := "b2", imprint := "J", status := "Loaned", due_back := "1999-01-02" }).2 =
      [Response.redirect "/catalog/bookinstance/1"] ∧
    BookInstance.findById (BookInstanceCtl.bookinstance_update_post sampleStore "1"
      { book := "b2", imprint := "J", status := "Loaned",
        due_back := "1999-01-02" }).1.bookinstances "1" =
      some { id := "1", book := "b2", imprint := "J", status := "Loaned",
             due_back := some "1999-01-02" } := by
  have h := update_post_preserves_id sampleStore "1"
    { first_name := "Mary", family_name := "Shelley" }
    { book := "b2", imprint := "J", status := "Loaned", due_back := "1999-01-02" }
  have ha := h.1 (by decide) (by decide)
  have hb := h.2 (by decide) (by decide)
  exact ⟨ha.1.trans (by decide), ha.2.trans (by decide),
         hb.1.trans (by decide), hb.2.trans (by decide)⟩

/-- C8 counterexample: a valid update POST against an unknown identifier
does not propagate a 404 error object — the handler dereferences the null
result of findByIdAndUpdate, so the forwarded error carries no status field
at all. -/
theorem update_post_unknown_id_cex :
    Author.findById emptyStore.authors "x" = none ∧
    (AuthorCtl.author_update_post emptyStore "x"
      { first_name := "Jane", family_name := "Austen" }).2 =
      [Response.nextError "Cannot read properties of null (reading url)" none] := by
  decide

/-- C8 (amended): an update GET request whose identifier does not resolve
propagates an error with status 404 and renders no view, for both Author
and BookInstance; an update POST request with valid field data and an
unresolved identifier also renders no view and propagates an error, but
that error is the TypeError from dereferencing null and carries no 404
status. -/
theorem update_not_found_behavior (store : Store) (pid : Id) (af : AuthorForm)
    (bf : BookInstanceForm) :
    (Author.findById store.authors pid = none →
      AuthorCtl.author_update_get store pid =
        [Response.nextError "author not found" (some 404)]) ∧
    (BookInstance.findById store.bookinstances pid = none →
      BookInstanceCtl.bookinstance_update_get store pid =
        [Response.nextError "book instance not found" (some 404)]) ∧
    ((authorUpdateValidation af).2 = [] →
      Author.findById store.authors pid = none →
      AuthorCtl.author_update_post store pid af =
        (store, [Response.nextError "Cannot read properties of null (reading url)" none])) ∧
    ((bookinstanceUpdateValidation bf).2 = [] →
      BookInstance.findById store.bookinstances pid = none →
      BookInstanceCtl.bookinstance_update_post store pid bf =
        (store, [Response.nextError "Cannot read properties of null (reading url)" none])) := by
  refine ⟨fun h => ?_, fun h => ?_, fun hv h => ?_, fun hv h => ?_⟩
  · unfold AuthorCtl.author_update_get
    rw [h]
  · unfold BookInstanceCtl.bookinstance_update_get
    rw [h]
  · unfold AuthorCtl.author_update_post
    rw [if_neg (by simp [hv])]
    rw [h]
  · unfold BookInstanceCtl.bookinstance_update_post
    rw [if_neg (by simp [hv])]
    rw [h]

/-- Witness for C8 at the empty store with valid forms. -/
theorem update_not_found_behavior_witness :
    AuthorCtl.author_update_get emptyStore "x" =
      [Response.nextError "author not found" (some 404)] ∧
    BookInstanceCtl.bookinstance_update_get emptyStore "x" =
      [Response.nextError "book instance not found" (some 404)] ∧
    AuthorCtl.author_update_post emptyStore "x"
      { first_name := "Mary", family_name := "Shelley" } =
      (emptyStore, [Response.nextError "Cannot read properties of null (reading url)" none]) ∧
    BookInstanceCtl.bookinstance_update_post emptyStore "x"
      { book := "b", imprint := "I", status := "Loaned", due_back := "1999-01-02" } =
      (emptyStore, [Response.nextError "Cannot read properties of null (reading url)" none]) := by
  have h := update_not_found_behavior emptyStore "x"
    { first_name := "Mary", family_name := "Shelley" }
    { book := "b", imprint := "I", status := "Loaned", due_back := "1999-01-02" }
  exact ⟨h.1 rfl, h.2.1 rfl, h.2.2.1 (by decide) rfl, h.2.2.2 (by decide) rfl⟩

/-- C9: in both delete POST handlers the document removed from the store is
the one named by the form body identifier, while the existence and
dependent checks use the path identifier; when the two identifiers differ
the document that was checked remains untouched. -/
theorem delete_post_removes_body_identifier (store : Store) (pid bodyId : Id) :
    (booksByAuthor store.books pid = [] →
      (AuthorCtl.author_delete_post store pid bodyId).1.authors =
        store.authors.filter (fun a => !(a.id == bodyId))) ∧
    ((BookInstance.findById store.bookinstances pid).isSome →
      (BookInstanceCtl.bookinstance_delete_post store pid bodyId).1.bookinstances =
        store.bookinstances.filter (fun b => !(b.id == bodyId))) ∧
    (pid ≠ bodyId → booksByAuthor store.books pid = [] →
      Author.findById (AuthorCtl.author_delete_post store pid bodyId).1.authors pid =
        Author.findById store.authors pid) ∧
    (pid ≠ bodyId → (BookInstance.findById store.bookinstances pid).isSome →
      BookInstance.findById
        (BookInstanceCtl.bookinstance_delete_post store pid bodyId).1.bookinstances pid =
        BookInstance.findById store.bookinstances pid) := by
  have hremove : booksByAuthor store.books pid = [] →
      (AuthorCtl.author_delete_post store pid bodyId).1.authors =
        store.authors.filter (fun a => !(a.id == bodyId)) := by
    intro h
    unfold AuthorCtl.author_delete_post
    rw [if_neg (by simp [h])]
  have hbi : (BookInstance.findById store.bookinstances pid).isSome →
      (BookInstanceCtl.bookinstance_delete_post store pid bodyId).1.bookinstances =
        store.bookinstances.filter (fun b => !(b.id == bodyId)) := by
    intro h
    obtain ⟨old, hold⟩ := Option.isSome_iff_exists.mp h
    unfold BookInstanceCtl.bookinstance_delete_post
    rw [hold]
  refine ⟨hremove, hbi, fun hne h => ?_, fun hne h => ?_⟩
  · rw [hremove h]
    have := find_filter_of_imp (fun a => a.id == pid) (fun a => !(a.id == bodyId))
      store.authors (fun a ha => by
        have : a.id = pid := eq_of_beq ha
        simp [this, hne])
    exact this
  · rw [hbi h]
    have := find_filter_of_imp (fun b => b.id == pid) (fun b => !(b.id == bodyId))
      store.bookinstances (fun b hb => by
        have : b.id = pid := eq_of_beq hb
        simp [this, hne])
    exact this

/-- Witness for C9: deleting with path id 1 and body id 2 removes author 2
and instance 2 while the checked documents with id 1 survive. -/
theorem delete_post_removes_body_identifier_witness :
    (AuthorCtl.author_delete_post twoEachStore "1" "2").1.authors =
      [{ id := "1", first_name := "Jane", family_name := "Austen" }] ∧
    (BookInstanceCtl.bookinstance_delete_post twoEachStore "1" "2").1.bookinstances =
      [{ id := "1", book := "b1" }] ∧
    Author.findById (AuthorCtl.author_delete_post twoEachStore "1" "2").1.authors "1" =
      some { id := "1", first_name := "Jane", family_name := "Austen" } ∧
    BookInstance.findById
      (BookInstanceCtl.bookinstance_delete_post twoEachStore "1" "2").1.bookinstances "1" =
      some { id := "1", book := "b1" } := by
  have h := delete_post_removes_body_identifier twoEachStore "1" "2"
  refine ⟨(h.1 rfl).trans (by decide), (h.2.1 (by decide)).trans (by decide), ?_, ?_⟩
  · exact (h.2.2.1 (by decide) rfl).trans (by decide)
  · exact (h.2.2.2 (by decide) (by decide)).trans (by decide)

/-- C6 counterexample: the same BookInstance form with an empty due_back
passes the create validation pipeline but is rejected by the update
pipeline, so the update validators are not equivalent to the create
validators. -/
theorem validators_due_back_cex :
    (bookinstanceCreateValidation
      { book := "5", imprint := "X", status := "Available", due_back := "" }).2 = [] ∧
    (bookinstanceUpdateValidation
      { book := "5", imprint := "X", status := "Available", due_back := "" }).2 =
      [⟨"due_back", "Date must not be empty."⟩] := by
  decide

/-- C6 (amended): only the required text fields book and imprint are
validated equivalently by the create and update pipelines (same sanitized
values, same acceptance); the optional date fields are not: create accepts
an empty due_back while update rejects it, and create rejects a non-ISO
date_of_birth while update accepts it untouched. -/
theorem validators_create_update_compared (f : BookInstanceForm) (g : AuthorForm) :
    (bookinstanceCreateValidation f).1.book = (bookinstanceUpdateValidation f).1.book ∧
    (bookinstanceCreateValidation f).1.imprint = (bookinstanceUpdateValidation f).1.imprint ∧
    hasFieldError (bookinstanceCreateValidation f).2 "book" =
      hasFieldError (bookinstanceUpdateValidation f).2 "book" ∧
    hasFieldError (bookinstanceCreateValidation f).2 "imprint" =
      hasFieldError (bookinstanceUpdateValidation f).2 "imprint" ∧
    hasFieldError (bookinstanceCreateValidation { f with due_back := "" }).2 "due_back" = false ∧
    hasFieldError (bookinstanceUpdateValidation { f with due_back := "" }).2 "due_back" = true ∧
    hasFieldError (authorCreateValidation { g with date_of_birth := "x" }).2 "date_of_birth" = true ∧
    hasFieldError (authorUpdateValidation { g with date_of_birth := "x" }).2 "date_of_birth" = false := by
  refine ⟨rfl, rfl, ?_, ?_, ?_, ?_, ?_, ?_⟩
  all_goals
    simp only [bookinstanceCreateValidation, bookinstanceUpdateValidation,
      authorCreateValidation, authorUpdateValidation, hasFieldError, required_escaped,
      escaped_only, trim_escaped, date_optional, alnum_required_escaped, List.any_append]
  all_goals
    split_ifs <;> simp_all +decide

end LL
